import Mathlib

/-!
Verification of the smart email assistant pipeline.

This file gives a shallow embedding of the pipeline implemented in
nodes.py, memory_manager.py, config.py, state.py and main.py, and proves
the stated properties of the specification against it.

Modelling conventions:
- Python JSON values are the inductive type Json; json.loads is modelled
  by jsonParse, a strict recursive-descent parser over the character list
  of the input (numbers become exact rationals).
- Python dict/str subscripting errors (KeyError, TypeError,
  AttributeError) are modelled with the Except monad over PyErr; an
  except clause corresponds to a match on the modelled error.
- The regex search r"\x7b.*\x7d" with re.DOTALL is modelled by
  extractBrace: the match starts at the first opening brace and, being
  greedy, ends at the last closing brace of the whole string.
- The memory file is modelled as a total map from sender address to the
  list of stored entries (a missing key is the empty list, matching
  dict.get(sender, []) on a possibly missing/corrupt file).
- Python string operations used by the code are modelled on the
  character list: startswith as list prefix, the in operator as list
  infix, str.lower as pyLower, str.strip as pyStrip, both on the character list.
-/

/-- A JSON value as produced by json.loads. -/
inductive Json where
  | null
  | bool (b : Bool)
  | num (q : ℚ)
  | str (s : String)
  | arr (elems : List Json)
  | obj (kvs : List (String × Json))

/-- Python exception kinds that the translated code can raise. -/
inductive PyErr where
  | keyError
  | typeError
  | attributeError
deriving DecidableEq

/-- Whitespace accepted between JSON tokens. -/
def isWsChar (c : Char) : Bool := c == ' ' || c == '\r' || c == '\n' || c == '\t'

/-- Skip leading JSON whitespace. -/
def skipWs : List Char → List Char
  | [] => []
  | c :: cs => if isWsChar c then skipWs cs else c :: cs

/-- Split a character list into its leading run of decimal digits and the rest. -/
def spanDigits : List Char → List Char × List Char
  | [] => ([], [])
  | c :: cs =>
    if c.isDigit then
      let p := spanDigits cs
      (c :: p.1, p.2)
    else ([], c :: cs)

/-- Numeric value of a digit run. -/
def digitsVal (ds : List Char) : Nat := ds.foldl (fun a c => a * 10 + (c.toNat - 48)) 0

/-- Value of one hexadecimal digit, if any. -/
def hexVal? (c : Char) : Option Nat :=
  if c.isDigit then some (c.toNat - 48)
  else if 'a' ≤ c && c ≤ 'f' then some (c.toNat - 87)
  else if 'A' ≤ c && c ≤ 'F' then some (c.toNat - 55)
  else none

/-- Translation of a JSON string escape character. -/
def escChar? : Char → Option Char
  | 'n' => some '\n'
  | 't' => some '\t'
  | 'r' => some '\r'
  | 'b' => some (Char.ofNat 8)
  | 'f' => some (Char.ofNat 12)
  | '"' => some '"'
  | '/' => some '/'
  | '\\' => some '\\'
  | _ => none

/-- Parse the body of a JSON string after the opening quote; returns the
decoded characters and the remaining input after the closing quote.
Raw control characters are rejected, as in strict json.loads. -/
def parseStringBody : List Char → Option (List Char × List Char)
  | [] => none
  | c :: cs =>
    if c == '"' then some ([], cs)
    else if c == '\\' then
      match cs with
      | [] => none
      | e :: cs2 =>
        if e == 'u' then
          match cs2 with
          | a :: b :: c3 :: d :: cs3 =>
            match hexVal? a, hexVal? b, hexVal? c3, hexVal? d with
            | some x, some y, some z, some w =>
              match parseStringBody cs3 with
              | some (out, rest) =>
                some (Char.ofNat (((x * 16 + y) * 16 + z) * 16 + w) :: out, rest)
              | none => none
            | _, _, _, _ => none
          | _ => none
        else
          match escChar? e with
          | some ec =>
            match parseStringBody cs2 with
            | some (out, rest) => some (ec :: out, rest)
            | none => none
          | none => none
    else if c.toNat < 32 then none
    else
      match parseStringBody cs with
      | some (out, rest) => some (c :: out, rest)
      | none => none

/-- Fractional part of a JSON number, if present: its digit value, its
digit count and the remaining input. -/
def parseFrac : List Char → Option (Nat × Nat × List Char)
  | '.' :: r =>
    match spanDigits r with
    | ([], _) => none
    | (fs, rr) => some (digitsVal fs, fs.length, rr)
  | cs => some (0, 0, cs)

/-- Exponent part of a JSON number, if present: its signed value and the
remaining input. -/
def parseExp : List Char → Option (Int × List Char)
  | c :: r =>
    if c == 'e' || c == 'E' then
      let sr : Int × List Char :=
        match r with
        | '+' :: t => (1, t)
        | '-' :: t => (-1, t)
        | t => (1, t)
      match spanDigits sr.2 with
      | ([], _) => none
      | (es, rr) => some (sr.1 * (digitsVal es : Int), rr)
    else some (0, c :: r)
  | [] => some (0, [])

/-- Assemble the exact rational value of a parsed JSON number from its
sign, integer part, fractional digits and exponent. -/
def assembleNum (neg : Bool) (ip fv fl : Nat) (ex : Int) : ℚ :=
  let n : Int := (if neg then -1 else 1) * (Int.ofNat (ip * 10 ^ fl + fv))
  if 0 ≤ ex then mkRat (n * Int.ofNat (10 ^ ex.toNat)) (10 ^ fl)
  else mkRat n (10 ^ fl * 10 ^ (-ex).toNat)

/-- Unsigned JSON number; leading zeros are rejected as in strict JSON. -/
def parseNumCore (neg : Bool) (cs : List Char) : Option (ℚ × List Char) :=
  match spanDigits cs with
  | ([], _) => none
  | (ds, r1) =>
    if 1 < ds.length && ds.head? == some '0' then none
    else
      match parseFrac r1 with
      | none => none
      | some (fv, fl, r2) =>
        match parseExp r2 with
        | none => none
        | some (ex, r3) => some (assembleNum neg (digitsVal ds) fv fl ex, r3)

/-- Possibly signed JSON number. -/
def parseNum (cs : List Char) : Option (ℚ × List Char) :=
  match cs with
  | '-' :: rest => parseNumCore true rest
  | _ => parseNumCore false cs

/-- Insert a key into a parsed object, overwriting an existing binding in
place as a Python dict does. -/
def objInsert : List (String × Json) → String → Json → List (String × Json)
  | [], k, v => [(k, v)]
  | (k2, v2) :: rest, k, v =>
    if k2 == k then (k2, v) :: rest else (k2, v2) :: objInsert rest k v

/-- Check for a literal such as rue / alse / ull after its first character. -/
def expectLit (lit : String) (cs : List Char) (v : Json) : Option (Json × List Char) :=
  if lit.data.isPrefixOf cs then some (v, cs.drop lit.data.length) else none

mutual

/-- Parse one JSON value (fuel-driven recursive descent). -/
def parseVal : Nat → List Char → Option (Json × List Char)
  | 0, _ => none
  | fuel + 1, cs =>
    match skipWs cs with
    | [] => none
    | c :: rest =>
      if c == '"' then (parseStringBody rest).map (fun p => (.str (String.mk p.1), p.2))
      else if c == '\x7b' then parseObjRest fuel (skipWs rest)
      else if c == '[' then parseArrRest fuel (skipWs rest)
      else if c == 't' then expectLit "rue" rest (.bool true)
      else if c == 'f' then expectLit "alse" rest (.bool false)
      else if c == 'n' then expectLit "ull" rest .null
      else (parseNum (c :: rest)).map (fun p => (.num p.1, p.2))

/-- Parse the remainder of an object after the opening brace. -/
def parseObjRest : Nat → List Char → Option (Json × List Char)
  | 0, _ => none
  | fuel + 1, cs =>
    match cs with
    | '\x7d' :: r => some (.obj [], r)
    | _ => parseMembers fuel cs []

/-- Parse the members of a non-empty object. -/
def parseMembers : Nat → List Char → List (String × Json) → Option (Json × List Char)
  | 0, _, _ => none
  | fuel + 1, cs, acc =>
    match skipWs cs with
    | '"' :: r =>
      match parseStringBody r with
      | none => none
      | some (k, r2) =>
        match skipWs r2 with
        | ':' :: r3 =>
          match parseVal fuel r3 with
          | none => none
          | some (v, r4) =>
            match skipWs r4 with
            | ',' :: r5 => parseMembers fuel r5 (objInsert acc (String.mk k) v)
            | '\x7d' :: r5 => some (.obj (objInsert acc (String.mk k) v), r5)
            | _ => none
        | _ => none
    | _ => none

/-- Parse the remainder of an array after the opening bracket. -/
def parseArrRest : Nat → List Char → Option (Json × List Char)
  | 0, _ => none
  | fuel + 1, cs =>
    match skipWs cs with
    | ']' :: r => some (.arr [], r)
    | _ => parseElems fuel cs []

/-- Parse the elements of a non-empty array. -/
def parseElems : Nat → List Char → List Json → Option (Json × List Char)
  | 0, _, _ => none
  | fuel + 1, cs, acc =>
    match parseVal fuel cs with
    | none => none
    | some (v, r) =>
      match skipWs r with
      | ',' :: r2 => parseElems fuel r2 (acc ++ [v])
      | ']' :: r2 => some (.arr (acc ++ [v]), r2)
      | _ => none

end

/-- Model of json.loads: strict parse of the whole string (trailing
non-whitespace input is an error). -/
def jsonParse (cs : List Char) : Option Json :=
  match parseVal (3 * cs.length + 3) cs with
  | some (v, rest) => if (skipWs rest).isEmpty then some v else none
  | none => none

/-- Index of the last occurrence of a character, if any. -/
def lastIdxOf (c : Char) (cs : List Char) : Option Nat :=
  (cs.reverse.findIdx? (· == c)).map (fun j => cs.length - 1 - j)

/-- Model of re.search of a greedy brace-delimited pattern with DOTALL:
the match runs from the first opening brace to the last closing brace
strictly after it; none if no such pair exists. -/
def extractBrace (cs : List Char) : Option (List Char) :=
  match cs.findIdx? (· == '\x7b') with
  | none => none
  | some i =>
    match lastIdxOf '\x7d' cs with
    | none => none
    | some j => if i < j then some ((cs.drop i).take (j - i + 1)) else none

/-- The parse step shared by classify_intent_node and generate_reply_node:
the brace-delimited substring is searched first and parsed when present;
only when no such substring exists is the whole response parsed. -/
def codeParse (s : String) : Option Json :=
  match extractBrace s.data with
  | some t => jsonParse t
  | none => jsonParse s.data

/-- The parse-or-default behaviour of the code: any failure yields the
supplied defaults. -/
def parseOrDefaultCode (s : String) (d : Json) : Json :=
  (codeParse s).getD d

/-- Written from the words of the specification (section 4.2): strict
parse of the full string first; on failure parse the first greedy
brace-delimited substring; on failure return the defaults. -/
def parseOrDefaultSpec (s : String) (d : Json) : Json :=
  match jsonParse s.data with
  | some v => v
  | none =>
    match extractBrace s.data with
    | some t => (jsonParse t).getD d
    | none => d

/-- Constructor tag of a JSON value, used to observe values without a
decidable equality on the nested inductive. -/
def Json.kind (v : Json) : Nat :=
  match v with
  | .obj _ => 5
  | .arr _ => 4
  | .str _ => 3
  | .num _ => 2
  | .bool _ => 1
  | .null => 0

/-- Python equality test of a JSON value against a string literal. -/
def Json.eqStr : Json → String → Bool
  | .str s, t => s == t
  | _, _ => false

/-- Observe a numeric JSON value. -/
def Json.asNum? : Json → Option ℚ
  | .num q => some q
  | _ => none

/-- Observe a string JSON value. -/
def Json.asStr? : Json → Option String
  | .str s => some s
  | _ => none

/-- Model of the Python in operator on strings: needle occurs as a
contiguous substring of hay. -/
def listContains (needle : List Char) : List Char → Bool
  | [] => needle.isEmpty
  | c :: cs => needle.isPrefixOf (c :: cs) || listContains needle cs

/-- String-level substring test, Python needle in hay. -/
def containsSub (needle hay : String) : Bool := listContains needle.data hay.data

/-- Model of Python str.startswith. -/
def pyStartswith (p s : String) : Bool := p.data.isPrefixOf s.data

/-- Model of Python str.lower (ASCII case folding, character by
character). -/
def pyLower (s : String) : String := String.mk (s.data.map Char.toLower)

/-- The characters removed by Python str.strip. -/
def isStripChar (c : Char) : Bool :=
  c == ' ' || c == '\x0b' || c == '\x0c' || c == '\t' || c == '\r' || c == '\n'

/-- Model of Python str.strip: remove leading and trailing whitespace. -/
def pyStrip (s : String) : String :=
  String.mk (((s.data.dropWhile isStripChar).reverse.dropWhile isStripChar).reverse)

/-- Model of Python slicing s[:n]. -/
def strTake (s : String) (n : Nat) : String := String.mk (s.data.take n)

/-- Model of Python "sep".join(parts). -/
def joinSep (sep : String) : List String → String
  | [] => ""
  | [a] => a
  | a :: b :: rest => a ++ sep ++ joinSep sep (b :: rest)

/-- Config.MAX_HISTORY_LENGTH from config.py. -/
def MAX_HISTORY_LENGTH : Nat := 5

/-- One record of the persisted history, a Python dict with these keys
(an absent key is modelled by none, matching dict.get with a default).
The intent value comes from a parsed JSON response, hence Json. -/
structure Entry where
  from_ : Option String
  to_ : Option String
  subject : Option String
  body : Option String
  timestamp : Option String
  intent : Option Json

/-- The persisted memory map: sender address to stored history list.
A sender absent from the backing file maps to the empty list, matching
all_memory.get(email_from, []) after a missing or corrupt file is
treated as the empty dict. -/
abbrev MemStore := String → List Entry

/-- The store corresponding to a missing or empty memory file. -/
def emptyStore : MemStore := fun _ => []

/-- MemoryManager.save_memory: read-modify-write that appends the new
message under its sender and keeps only the last MAX_HISTORY_LENGTH
entries (the Python slice [-max_length:], List.rtake here). -/
def saveMemory (m : MemStore) (sender : String) (e : Entry) : MemStore :=
  fun k => if k = sender then (m sender ++ [e]).rtake MAX_HISTORY_LENGTH else m k

/-- MemoryManager.load_memory: the stored list for the sender, trimmed
to the last MAX_HISTORY_LENGTH entries on read. -/
def loadMemory (m : MemStore) (sender : String) : List Entry :=
  (m sender).rtake MAX_HISTORY_LENGTH

/-- The four lines contributed by one history entry to the rendered
context: numbered From line, Subject line, Body line, and a blank line. -/
def entryLines (i : Nat) (e : Entry) : List String :=
  [toString i ++ ". From: " ++ e.from_.getD "Unknown",
   "   Subject: " ++ e.subject.getD "No subject",
   "   Body: " ++ e.body.getD "No content",
   ""]

/-- MemoryManager.get_memory_context: the literal no-history text for an
empty history, otherwise the header line followed by the numbered entry
blocks, all joined with newlines (enumerate starts at 1). -/
def getMemoryContext (m : MemStore) (sender : String) : String :=
  let history := loadMemory m sender
  if history.isEmpty then "No previous conversation history."
  else joinSep "\n" ("Previous conversation history:" ::
    (history.enum.map (fun p => entryLines (p.1 + 1) p.2)).flatten)

/-- EmailNodes.memory_node: get_memory_context guarded by a catch-all
except that substitutes a placeholder on any storage error. The argument
is the outcome of the get_memory_context call. -/
def memoryNode (r : Except Unit String) : String :=
  match r with
  | .ok s => s
  | .error _ => "No previous conversation history available."

/-- The raw classification prompt template of classify_intent_node
(literal braces written as escapes; placeholders kept verbatim). -/
def classifyPrompt : String :=
  "\n        Classify the intent of this email as one of: complaint, request, feedback, inquiry.\n        Also analyze the tone of the email and provide a confidence score between 0 and 1.\n        \n        Email: \x7bemail_body\x7d\n        \n        Respond in JSON format with exactly this structure:\n        \x7b\x7b\n            \"intent\": \"complaint|request|feedback|inquiry\",\n            \"tone\": \"angry|frustrated|neutral|happy|urgent\",\n            \"confidence\": 0.95\n        \x7d\x7d\n        "

/-- The raw summarization prompt template of summarize_node. -/
def summarizePrompt : String :=
  "\n        Summarize the email briefly in 2-3 lines, focusing on:\n        1. The sender\x27s main point or request\n        2. The emotional tone and urgency\n        3. Key details that need attention\n        \n        Email: \x7bemail_body\x7d\n        Tone: \x7btone\x7d\n        Intent: \x7bintent\x7d\n        \n        Provide only the summary text, no additional commentary.\n        "

/-- The raw reply prompt template of generate_reply_node. -/
def replyPrompt : String :=
  "\n        You are a professional support agent. Write a polite and context-aware reply to this customer email.\n        \n        INTENT: \x7bintent\x7d\n        TONE TO USE: \x7brequired_tone\x7d\n        EMAIL SUMMARY: \x7bsummary\x7d\n        CUSTOMER\x27S TONE: \x7bcustomer_tone\x7d\n        CONVERSATION HISTORY: \x7bmemory_context\x7d\n        \n        Original Email Subject: \x7bsubject\x7d\n        Customer\x27s Email: \x7bemail_body\x7d\n        \n        Guidelines:\n        - Match the \x7brequired_tone\x7d tone\n        - Address the customer by name if possible (extract from email)\n        - Be specific and helpful\n        - Include relevant details from conversation history\n        - Keep it professional but warm\n        - For payment issues, suggest checking payment details\n        \n        Respond in JSON format with exactly this structure:\n        \x7b\x7b\n            \"subject\": \"Re: Original Subject\",\n            \"body\": \"Your polite reply here...\",\n            \"tone_used\": \"description of tone used\"\n        \x7d\x7d\n        "

/-- Keyword cues of the complaint-shaped classification fallback. -/
def complaintKeywords : List String := ["problem", "issue", "not working", "failed"]

/-- Keyword cues of the request-shaped classification fallback. -/
def requestKeywords : List String := ["please", "can you", "help"]

/-- The complaint-shaped classification fallback JSON string. -/
def classifyComplaintFallback : String :=
  "\x7b\"intent\": \"complaint\", \"tone\": \"frustrated\", \"confidence\": 0.9\x7d"

/-- The request-shaped classification fallback JSON string. -/
def classifyRequestFallback : String :=
  "\x7b\"intent\": \"request\", \"tone\": \"neutral\", \"confidence\": 0.85\x7d"

/-- The inquiry-shaped classification fallback JSON string. -/
def classifyInquiryFallback : String :=
  "\x7b\"intent\": \"inquiry\", \"tone\": \"neutral\", \"confidence\": 0.8\x7d"

/-- The empathetic reply fallback JSON string used for complaints. -/
def replyComplaintFallback : String :=
  "\x7b\n    \"subject\": \"Re: Your Issue\",\n    \"body\": \"I understand you\x27re experiencing an issue and I apologize for the inconvenience. Let me help resolve this for you.\",\n    \"tone_used\": \"empathetic\"\n\x7d"

/-- The generic helpful reply fallback JSON string. -/
def replyGenericFallback : String :=
  "\x7b\n    \"subject\": \"Re: Your Request\", \n    \"body\": \"Thank you for your message. I\x27ll be happy to assist you with this.\",\n    \"tone_used\": \"helpful\"\n\x7d"

/-- EmailNodes.get_fallback_response. Of the variables mapping, the code
consults only email_body (default the empty string) and intent (default
the string inquiry); both are passed explicitly here. The template
checks are case-sensitive substring tests on the raw template. -/
def getFallbackResponse (tmpl : String) (emailBody : String) (intent : Json) : String :=
  let body := pyLower emailBody
  if containsSub "classify the intent" tmpl then
    if complaintKeywords.any (fun w => containsSub w body) then classifyComplaintFallback
    else if requestKeywords.any (fun w => containsSub w body) then classifyRequestFallback
    else classifyInquiryFallback
  else if containsSub "summarize the email" tmpl then
    "Customer reports: " ++ strTake body 100 ++ "..."
  else if containsSub "Write a polite and context-aware reply" tmpl then
    if Json.eqStr intent "complaint" then replyComplaintFallback else replyGenericFallback
  else "Fallback response"

/-- Lookup in a parsed JSON object (Python dict indexing, first match;
the parser already keeps keys unique). -/
def dictGet : List (String × Json) → String → Option Json
  | [], _ => none
  | (k, v) :: rest, key => if k == key then some v else dictGet rest key

/-- Python subscripting result[key]: KeyError on a dict without the key,
TypeError when the value is not a dict at all. -/
def Json.getItem : Json → String → Except PyErr Json
  | .obj kvs, k =>
    match dictGet kvs k with
    | some v => .ok v
    | none => .error .keyError
  | _, _ => .error .typeError

/-- An incoming email (state.py EmailMessage). -/
structure EmailMessage where
  from_email : String
  to_ : String
  subject : String
  body : String

/-- The parse-failure defaults of classify_intent_node: intent request,
tone neutral, confidence 0.9 (the exact rational 9/10). -/
def classifyDefaults : Json :=
  .obj [("intent", .str "request"), ("tone", .str "neutral"), ("confidence", .num (mkRat 9 10))]

/-- What classify_intent_node contributes to the state, together with
the memory store after its save. -/
structure ClassifyRes where
  intent : Json
  tone : Json
  confidence : Json
  store : MemStore

/-- EmailNodes.classify_intent_node given the adapter response: parse or
default, save a history entry (the save is wrapped in a catch-all
except, so a failure to read the intent key merely skips it), then read
intent, tone and confidence in that order, each read able to raise. -/
def classifyNode (em : EmailMessage) (store : MemStore) (ts : String) (response : String) :
    Except PyErr ClassifyRes :=
  let result := (codeParse response).getD classifyDefaults
  let store2 :=
    match result.getItem "intent" with
    | .ok iv =>
      saveMemory store em.from_email
        ⟨some em.from_email, some em.to_, some em.subject, some em.body, some ts, some iv⟩
    | .error _ => store
  match result.getItem "intent" with
  | .error e => .error e
  | .ok iv =>
    match result.getItem "tone" with
    | .error e => .error e
    | .ok tv =>
      match result.getItem "confidence" with
      | .error e => .error e
      | .ok cv => .ok ⟨iv, tv, cv, store2⟩

/-- The generic acknowledgement body of the reply-stage parse-failure
fallback. -/
def replyFallbackBody : String :=
  "Thank you for your email. We have received your message and will get back to you shortly."

/-- The Re: normalization of generate_reply_node on a parsed subject
string: prepend Re: unless the subject already starts with it. -/
def normalizeSubject (s : String) : String :=
  if pyStartswith "Re: " s then s else "Re: " ++ s

/-- EmailNodes.generate_reply_node after the adapter response: parse the
response (brace substring first); a parse failure is caught and yields
the fallback subject and body; a successful parse reads subject (a read
failure propagates as KeyError/TypeError), normalizes the Re: prefix
when subject is a string (a non-string subject raises AttributeError,
which the except clause catches into the fallback), then reads body
outside the try, able to raise KeyError. -/
def replyNode (origSubject : String) (response : String) : Except PyErr (String × Json) :=
  match codeParse response with
  | none => .ok ("Re: " ++ origSubject, .str replyFallbackBody)
  | some j =>
    match j.getItem "subject" with
    | .error e => .error e
    | .ok sv =>
      match sv with
      | .str s =>
        let s2 := normalizeSubject s
        match j.getItem "body" with
        | .error e => .error e
        | .ok bv => .ok (s2, bv)
      | _ => .ok ("Re: " ++ origSubject, .str replyFallbackBody)

/-- Python comparison value < threshold for a JSON value: numbers and
booleans compare to a float; every other type raises TypeError. -/
def jsonLtQ : Json → ℚ → Except PyErr Bool
  | .num q, t => .ok (decide (q < t))
  | .bool b, t => .ok (decide ((if b then mkRat 1 1 else mkRat 0 1) < t))
  | _, _ => .error .typeError

/-- The urgent-or-angry test of decision_node on the lowercased tone. -/
def toneFlag (t : String) : Bool :=
  containsSub "urgent" (pyLower t) || containsSub "angry" (pyLower t)

/-- The elif branch of decision_node: lowercasing a non-string tone
raises AttributeError; otherwise escalate iff the tone has an urgent or
angry marker and confidence < 0.7. -/
def decisionTail (tone confidence : Json) : Except PyErr Bool :=
  match tone with
  | .str t => if toneFlag t then jsonLtQ confidence (mkRat 7 10) else .ok false
  | _ => .error .attributeError

/-- EmailNodes.decision_node: complaint with confidence < 0.8 escalates;
otherwise the tone rule applies. -/
def decisionNode (intent tone confidence : Json) : Except PyErr Bool :=
  if Json.eqStr intent "complaint" then
    match jsonLtQ confidence (mkRat 4 5) with
    | .error e => .error e
    | .ok true => .ok true
    | .ok false => decisionTail tone confidence
  else decisionTail tone confidence

/-- The output record of SmartEmailAssistant.process_email (the Python
key from is from_ here). -/
structure Output where
  subject : String
  body : Json
  to_ : String
  from_ : String
  intent : Json
  escalate : Bool
  confidence : Json
  summary : String

/-- The pipeline of main.py run on one email, given the three adapter
response strings (classify, summarize, reply). Stages run in graph
order; an uncaught exception in a stage aborts the run. The recall
stage reads the store already updated by classify. -/
def runPipeline (em : EmailMessage) (store : MemStore) (ts : String) (rc rs rr : String) :
    Except PyErr Output :=
  match classifyNode em store ts rc with
  | .error e => .error e
  | .ok cr =>
    let summary := pyStrip rs
    let _ctx := getMemoryContext cr.store em.from_email
    match replyNode em.subject rr with
    | .error e => .error e
    | .ok rp =>
      match decisionNode cr.intent cr.tone cr.confidence with
      | .error e => .error e
      | .ok esc =>
        .ok ⟨rp.1, rp.2, em.from_email, em.to_, cr.intent, esc, cr.confidence, summary⟩

/-- The pipeline run with the model adapter unavailable (llm None or
raising): every safe_llm_call returns get_fallback_response applied to
the stage template and the current state variables. -/
def runPipelineFallback (em : EmailMessage) (store : MemStore) (ts : String) :
    Except PyErr Output :=
  match classifyNode em store ts (getFallbackResponse classifyPrompt em.body (.str "inquiry")) with
  | .error e => .error e
  | .ok cr =>
    let summary := pyStrip (getFallbackResponse summarizePrompt em.body (.str "inquiry"))
    let _ctx := getMemoryContext cr.store em.from_email
    match replyNode em.subject (getFallbackResponse replyPrompt em.body cr.intent) with
    | .error e => .error e
    | .ok rp =>
      match decisionNode cr.intent cr.tone cr.confidence with
      | .error e => .error e
      | .ok esc =>
        .ok ⟨rp.1, rp.2, em.from_email, em.to_, cr.intent, esc, cr.confidence, summary⟩

/-- The partial state update returned by classify_intent_node. -/
def classifyUpdate (intent tone confidence : Json) (ts : String) : List (String × Json) :=
  [("intent", intent), ("tone", tone), ("confidence", confidence), ("timestamp", .str ts)]

/-- The partial state update returned by summarize_node. -/
def summarizeUpdate (summary : String) : List (String × Json) :=
  [("summary", .str summary)]

/-- The partial state update returned by memory_node. -/
def memoryUpdate (ctx : String) : List (String × Json) :=
  [("memory_context", .str ctx)]

/-- The partial state update returned by generate_reply_node. -/
def generateReplyUpdate (subj : String) (body : Json) : List (String × Json) :=
  [("reply_subject", .str subj), ("reply_body", body)]

/-- The partial state update returned by decision_node. -/
def decisionUpdate (esc : Bool) : List (String × Json) :=
  [("escalate", .bool esc)]

/-- The runner merges a partial update into the shared state, the update
winning on its own keys. -/
def mergeUpdate (st : String → Option Json) (u : List (String × Json)) : String → Option Json :=
  fun k =>
    match u.lookup k with
    | some v => some v
    | none => st k

/-- The five per-stage updates in the fixed graph order of _build_graph. -/
def pipelineUpdates (intent tone confidence : Json) (ts summary ctx subj : String)
    (body : Json) (esc : Bool) : List (List (String × Json)) :=
  [classifyUpdate intent tone confidence ts, summarizeUpdate summary, memoryUpdate ctx,
   generateReplyUpdate subj body, decisionUpdate esc]

/-- The input refuting the claimed parse order: a valid JSON string
whose text is a brace pair. The whole input parses as the JSON string,
but the code extracts the brace substring first and parses it as the
empty object. -/
def c2Input : String := "\"\x7b\x7d\""

/-- A concrete entry used by witnesses. -/
def mkEntry (i : Nat) : Entry :=
  ⟨some "cust@example.com", some "support@yourapp.com", some (toString i),
   some "body text", some "2024-01-01T00:00:00", none⟩

/-- Six concrete entries, one more than the retention bound. -/
def sixEntries : List Entry := (List.range 6).map mkEntry

/-- The input email of end-to-end scenario 1 (the recipient address is
not fixed by the scenario; any value gives the same intent, escalation
and reply subject). -/
def c4Email : EmailMessage :=
  ⟨"sarah@example.com", "support@yourapp.com", "Payment not going through",
   "payment failing twice"⟩

/-- A structurally valid input email used for the C5 failing run. -/
def c5Email : EmailMessage :=
  ⟨"john@example.com", "support@yourapp.com", "Question", "How does billing work?"⟩

/-- One rendered history block: the numbered From line, the Subject
line and the Body line, joined by newlines. -/
def entryBlock (i : Nat) (e : Entry) : String :=
  toString i ++ ". From: " ++ e.from_.getD "Unknown" ++ "\n" ++
    "   Subject: " ++ e.subject.getD "No subject" ++ "\n" ++
    "   Body: " ++ e.body.getD "No content"

/-- A concrete store holding two entries for one sender. -/
def c8Store : MemStore :=
  fun k => if k = "cust@example.com" then [mkEntry 0, mkEntry 1] else []

/-- The state after the runner has merged the five stage updates in
graph order into the all-empty initial working map. -/
def finalState (intent tone confidence : Json) (ts summary ctx subj : String)
    (body : Json) (esc : Bool) : String → Option Json :=
  (pipelineUpdates intent tone confidence ts summary ctx subj body esc).foldl
    mergeUpdate (fun _ => none)

example : (jsonParse "Fallback response".data).isNone = true := rfl
example : (jsonParse "\"\x7b\x7d\"".data).map Json.kind = some 3 := rfl
example : (codeParse "\"\x7b\x7d\"").map Json.kind = some 5 := rfl
example : (jsonParse "0.9".data).bind Json.asNum? = some (mkRat 9 10) := by decide
example : (jsonParse "0.85".data).bind Json.asNum? = some (mkRat 17 20) := by decide
example : (jsonParse "-1.5e2".data).bind Json.asNum? = some (mkRat (-150) 1) := by decide

/-- C1: for every pipeline state with string intent, string tone and
numeric confidence, the decide stage escalates exactly when intent is
complaint with confidence < 0.8, or otherwise when the tone contains an
urgent or angry marker (case-insensitively) and confidence < 0.7; both
comparisons are strict, so at the boundary confidences 0.8 (complaint
rule) and 0.7 (tone rule, intent not complaint) it does not escalate. -/
theorem C1_escalation_rule :
    (∀ (i t : String) (c : ℚ),
      decisionNode (.str i) (.str t) (.num c) =
        .ok (decide ((i = "complaint" ∧ c < mkRat 4 5) ∨
          (¬(i = "complaint" ∧ c < mkRat 4 5) ∧
            (containsSub "urgent" (pyLower t) = true ∨ containsSub "angry" (pyLower t) = true) ∧
            c < mkRat 7 10)))) ∧
    (∀ t : String, decisionNode (.str "complaint") (.str t) (.num (mkRat 4 5)) = .ok false) ∧
    (∀ (i t : String), i ≠ "complaint" →
      decisionNode (.str i) (.str t) (.num (mkRat 7 10)) = .ok false) := by
  have key : ∀ (i t : String) (c : ℚ),
      decisionNode (.str i) (.str t) (.num c) =
        .ok (decide ((i = "complaint" ∧ c < mkRat 4 5) ∨
          (¬(i = "complaint" ∧ c < mkRat 4 5) ∧
            (containsSub "urgent" (pyLower t) = true ∨ containsSub "angry" (pyLower t) = true) ∧
            c < mkRat 7 10))) := by
    intro i t c
    simp only [decisionNode, decisionTail, jsonLtQ, Json.eqStr, toneFlag]
    by_cases hi : i = "complaint" <;>
      by_cases hc : c < mkRat 4 5 <;>
        by_cases hu : containsSub "urgent" (pyLower t) = true <;>
          by_cases ha : containsSub "angry" (pyLower t) = true <;>
            by_cases h7 : c < mkRat 7 10 <;>
              simp [hi, hc, hu, ha, h7]
  refine ⟨key, fun t => ?_, fun i t h => ?_⟩
  · rw [key]
    have h1 : ¬(mkRat 4 5 < mkRat 4 5) := by decide
    have h2 : ¬(mkRat 4 5 < mkRat 7 10) := by decide
    simp [h1, h2]
  · rw [key]
    have h1 : ¬(mkRat 7 10 < mkRat 7 10) := by decide
    simp [h, h1]

/-- Witness for C1 at concrete inputs, discharging the non-complaint
hypothesis of the boundary clause. -/
theorem C1_escalation_rule_witness :
    ("inquiry" : String) ≠ "complaint" ∧
    decisionNode (.str "inquiry") (.str "angry") (.num (mkRat 7 10)) = .ok false :=
  ⟨by decide, C1_escalation_rule.2.2 "inquiry" "angry" (by decide)⟩

/-- A string with no opening brace has no brace-delimited match. -/
theorem extractBrace_eq_none (cs : List Char) (h : ∀ c ∈ cs, (c == '\x7b') = false) :
    extractBrace cs = none := by
  unfold extractBrace
  rw [List.findIdx?_eq_none_iff.mpr h]

/-- C2 counterexample: on the input that is valid JSON as a whole, the
code does not parse it as-is (kind 3, a JSON string) but parses the
extracted brace substring (kind 5, an object), refuting the claimed
full-parse-first order. -/
theorem C2_counterexample :
    jsonParse c2Input.data = some (.str "\x7b\x7d") ∧
    (parseOrDefaultSpec c2Input Json.null).kind = 3 ∧
    (parseOrDefaultCode c2Input Json.null).kind = 5 ∧
    parseOrDefaultCode c2Input Json.null ≠ parseOrDefaultSpec c2Input Json.null := by
  refine ⟨rfl, rfl, rfl, fun h => ?_⟩
  exact absurd (congrArg Json.kind h) (by decide)

/-- C2 amended: the response parser searches for the first greedy
brace-delimited substring first and parses only that when present (its
failure yields the defaults without retrying the full string); only
when no brace-delimited substring exists does it strictly parse the
full string; a non-JSON string containing no opening brace yields the
supplied defaults exactly. -/
theorem C2_parse_order :
    (∀ (s : String) (d : Json) (t : List Char), extractBrace s.data = some t →
      parseOrDefaultCode s d = (jsonParse t).getD d) ∧
    (∀ (s : String) (d : Json), extractBrace s.data = none →
      parseOrDefaultCode s d = (jsonParse s.data).getD d) ∧
    (∀ (s : String) (d : Json), (∀ c ∈ s.data, (c == '\x7b') = false) →
      jsonParse s.data = none → parseOrDefaultCode s d = d) := by
  refine ⟨fun s d t h => ?_, fun s d h => ?_, fun s d hb hp => ?_⟩
  · simp [parseOrDefaultCode, codeParse, h]
  · simp [parseOrDefaultCode, codeParse, h]
  · simp [parseOrDefaultCode, codeParse, extractBrace_eq_none s.data hb, hp]

/-- Witness for C2 at concrete inputs: a response with a brace match, a
brace-free response, and a brace-free non-JSON response. -/
theorem C2_parse_order_witness :
    (extractBrace "x\x7b\x7dy".data = some "\x7b\x7d".data ∧
      parseOrDefaultCode "x\x7b\x7dy" Json.null =
        (jsonParse "\x7b\x7d".data).getD Json.null) ∧
    (extractBrace "plain".data = none ∧
      parseOrDefaultCode "plain" Json.null = (jsonParse "plain".data).getD Json.null) ∧
    ((∀ c ∈ "plain text".data, (c == '\x7b') = false) ∧ jsonParse "plain text".data = none ∧
      parseOrDefaultCode "plain text" Json.null = Json.null) :=
  ⟨⟨rfl, C2_parse_order.1 "x\x7b\x7dy" Json.null "\x7b\x7d".data rfl⟩,
   ⟨rfl, C2_parse_order.2.1 "plain" Json.null rfl⟩,
   ⟨by decide, rfl, C2_parse_order.2.2 "plain text" Json.null (by decide) rfl⟩⟩

/-- Keeping the last n elements, appending, and keeping the last n again
is the same as keeping the last n of the whole concatenation. -/
theorem rtake_append_rtake {α : Type} (l t : List α) (n : ℕ) :
    (l.rtake n ++ t).rtake n = (l ++ t).rtake n := by
  simp only [List.rtake_eq_reverse_take_reverse, List.reverse_append, List.reverse_reverse]
  rw [List.take_append_eq_append_take, List.take_take,
    min_eq_left (Nat.sub_le _ _), ← List.take_append_eq_append_take]

/-- Folding saves for one sender over any starting store accumulates the
appended entries and keeps the last MAX_HISTORY_LENGTH of them. -/
theorem saveMemory_foldl (es : List Entry) (m : MemStore) (sender : String) (h : es ≠ []) :
    (es.foldl (fun acc e => saveMemory acc sender e) m) sender
      = (m sender ++ es).rtake MAX_HISTORY_LENGTH := by
  induction es generalizing m with
  | nil => exact absurd rfl h
  | cons e es ih =>
    cases es with
    | nil => simp [saveMemory]
    | cons e2 es2 =>
      rw [List.foldl_cons, ih (saveMemory m sender e) (by simp)]
      have hs : (saveMemory m sender e) sender
          = (m sender ++ [e]).rtake MAX_HISTORY_LENGTH := by simp [saveMemory]
      rw [hs, rtake_append_rtake]
      simp

/-- C3: a save always leaves the saved sender with at most
MAX_HISTORY_LENGTH entries, and appending more than the bound of
entries from an empty store leaves exactly the bound most recent
entries in oldest-first order (the final suffix of the appended list). -/
theorem C3_memory_retention :
    (∀ (m : MemStore) (sender : String) (e : Entry),
      ((saveMemory m sender e) sender).length ≤ MAX_HISTORY_LENGTH) ∧
    (∀ (es : List Entry) (sender : String), MAX_HISTORY_LENGTH < es.length →
      (es.foldl (fun acc e => saveMemory acc sender e) emptyStore) sender
          = es.rtake MAX_HISTORY_LENGTH ∧
      ((es.foldl (fun acc e => saveMemory acc sender e) emptyStore) sender).length
          = MAX_HISTORY_LENGTH) := by
  constructor
  · intro m sender e
    have hs : (saveMemory m sender e) sender
        = (m sender ++ [e]).rtake MAX_HISTORY_LENGTH := by simp [saveMemory]
    rw [hs]
    simp only [List.rtake, List.length_drop]
    omega
  · intro es sender h
    have hne : es ≠ [] := by
      intro he
      rw [he] at h
      simp at h
    have heq := saveMemory_foldl es emptyStore sender hne
    rw [emptyStore] at heq
    simp only [List.nil_append] at heq
    refine ⟨heq, ?_⟩
    rw [heq]
    simp only [List.rtake, List.length_drop]
    omega

/-- Witness for C3: six appends for one sender leave exactly the last
five entries. -/
theorem C3_memory_retention_witness :
    MAX_HISTORY_LENGTH < sixEntries.length ∧
    ((sixEntries.foldl (fun acc e => saveMemory acc "cust@example.com" e) emptyStore)
        "cust@example.com" = sixEntries.rtake MAX_HISTORY_LENGTH ∧
      ((sixEntries.foldl (fun acc e => saveMemory acc "cust@example.com" e) emptyStore)
        "cust@example.com").length = MAX_HISTORY_LENGTH) :=
  ⟨by decide, C3_memory_retention.2 sixEntries "cust@example.com" (by decide)⟩

set_option maxRecDepth 100000 in
/-- C4 counterexample: the complaint-shaped fallback carries intent
complaint, but with the adapter forced to fail the pipeline output for
the scenario 1 email has intent request, not the complaint-shaped
fallback intent: the template checks of the keyword heuristic are
case-sensitive and miss the classification template, and the body has
none of the complaint keywords anyway, so classify receives the generic
fallback text and both parse attempts fail. -/
theorem C4_counterexample :
    (((codeParse classifyComplaintFallback).getD .null).getItem "intent").map
        (fun v => Json.eqStr v "complaint") = .ok true ∧
    containsSub "classify the intent" classifyPrompt = false ∧
    (runPipelineFallback c4Email emptyStore "2024-01-01T00:00:00").map
        (fun o => Json.eqStr o.intent "complaint") = .ok false := by
  refine ⟨rfl, rfl, rfl⟩

set_option maxRecDepth 100000 in
/-- C4 amended: for the scenario 1 email with the adapter forced to
fail, the classify stage receives the generic fallback text, both parse
attempts fail, and the output carries the classify parse-failure
defaults: intent request with confidence 0.9 and neutral tone, hence
escalate false, and the reply fallback subject Re: Your Request, which
starts with Re: ; the summary is the generic fallback text. -/
theorem C4_fallback_scenario :
    (runPipelineFallback c4Email emptyStore "2024-01-01T00:00:00").map
        (fun o => (o.subject, Json.eqStr o.intent "request", o.escalate,
          pyStartswith "Re: " o.subject, Json.asNum? o.confidence, o.summary))
      = .ok ("Re: Your Request", true, false, true, some (mkRat 9 10), "Fallback response") := by
  rfl

set_option maxRecDepth 100000 in
/-- C5: the code contradicts the always-complete contract. The classify
response that is the valid JSON empty object parses successfully, so
the parse-failure defaults are not installed, and the subsequent read
of the intent key raises an uncaught KeyError that aborts the pipeline
instead of producing a degraded output record. -/
theorem C5_pipeline_raises_on_empty_object :
    runPipeline c5Email emptyStore "2024-01-01T00:00:00" "\x7b\x7d" "a summary"
        "\x7b\"subject\": \"Re: Question\", \"body\": \"text\"\x7d" = .error .keyError := by
  rfl

/-- A string is always a prefix of itself followed by anything. -/
theorem pyStartswith_append (p s : String) : pyStartswith p (p ++ s) = true := by
  simp only [pyStartswith, String.data_append]
  exact List.isPrefixOf_iff_prefix.mpr (List.prefix_append _ _)

/-- C6: the reply-subject normalization leaves an already prefixed
subject unchanged, prepends exactly one Re: otherwise, and is
idempotent. -/
theorem C6_subject_normalization :
    ∀ s : String,
      (pyStartswith "Re: " s = true → normalizeSubject s = s) ∧
      (pyStartswith "Re: " s = false → normalizeSubject s = "Re: " ++ s) ∧
      normalizeSubject (normalizeSubject s) = normalizeSubject s := by
  intro s
  refine ⟨fun h => by simp [normalizeSubject, h], fun h => by simp [normalizeSubject, h], ?_⟩
  by_cases h : pyStartswith "Re: " s = true
  · simp [normalizeSubject, h]
  · simp [normalizeSubject, h, pyStartswith_append]

/-- Witness for C6 on both shapes of subject. -/
theorem C6_subject_normalization_witness :
    (pyStartswith "Re: " "Hello" = false ∧ normalizeSubject "Hello" = "Re: " ++ "Hello") ∧
    (pyStartswith "Re: " "Re: Hi" = true ∧ normalizeSubject "Re: Hi" = "Re: Hi") :=
  ⟨⟨rfl, (C6_subject_normalization "Hello").2.1 rfl⟩,
   ⟨rfl, (C6_subject_normalization "Re: Hi").1 rfl⟩⟩

/-- C7: whenever both parse attempts fail on the classify response, the
classify stage installs the classify-stage defaults intent request,
tone neutral, confidence 0.9, and stores a history entry carrying the
default intent. -/
theorem C7_classify_defaults (em : EmailMessage) (store : MemStore) (ts : String) (r : String)
    (h : codeParse r = none) :
    classifyNode em store ts r =
      .ok ⟨.str "request", .str "neutral", .num (mkRat 9 10),
        saveMemory store em.from_email
          ⟨some em.from_email, some em.to_, some em.subject, some em.body, some ts,
           some (.str "request")⟩⟩ := by
  unfold classifyNode
  rw [h]
  rfl

/-- Witness for C7 at a brace-free non-JSON response. -/
theorem C7_classify_defaults_witness :
    codeParse "hello" = none ∧
    classifyNode c5Email emptyStore "t0" "hello" =
      .ok ⟨.str "request", .str "neutral", .num (mkRat 9 10),
        saveMemory emptyStore c5Email.from_email
          ⟨some c5Email.from_email, some c5Email.to_, some c5Email.subject, some c5Email.body,
           some "t0", some (.str "request")⟩⟩ :=
  ⟨rfl, C7_classify_defaults c5Email emptyStore "t0" "hello" rfl⟩

/-- Joining a cons with a non-empty tail splits off the head and one
separator. -/
theorem joinSep_cons (sep a : String) (rest : List String) (h : rest ≠ []) :
    joinSep sep (a :: rest) = a ++ sep ++ joinSep sep rest := by
  cases rest with
  | nil => exact absurd rfl h
  | cons b t => rfl

/-- Joining a concatenation of two non-empty lists splits into the two
joins around one separator. -/
theorem joinSep_append (sep : String) (xs ys : List String) (hx : xs ≠ []) (hy : ys ≠ []) :
    joinSep sep (xs ++ ys) = joinSep sep xs ++ sep ++ joinSep sep ys := by
  induction xs with
  | nil => exact absurd rfl hx
  | cons a t ih =>
    cases t with
    | nil =>
      rw [List.singleton_append, joinSep_cons sep a ys hy]
      rfl
    | cons b t2 =>
      rw [List.cons_append, joinSep_cons sep a ((b :: t2) ++ ys) (by simp),
        joinSep_cons sep a (b :: t2) (by simp), ih (by simp)]
      simp [String.append_assoc]

/-- The four lines of one entry join into its block plus the trailing
newline produced by the blank fourth line. -/
theorem joinSep_entryLines (i : Nat) (e : Entry) :
    joinSep "\n" (entryLines i e) = entryBlock i e ++ "\n" := by
  have hsub : ∀ x : String, "\n" ++ ("   Subject: " ++ x) = "\n   Subject: " ++ x := by
    intro x
    rw [← String.append_assoc]
    rfl
  have hbody : ∀ x : String, "\n" ++ ("   Body: " ++ x) = "\n   Body: " ++ x := by
    intro x
    rw [← String.append_assoc]
    rfl
  simp [joinSep, entryLines, entryBlock, String.append_assoc, String.append_empty, hsub, hbody]

/-- Newline-joining the concatenated four-line groups of a non-empty
entry list renders the blocks separated by blank lines, with a final
newline. -/
theorem joinSep_flatten_blocks (l : List (Nat × Entry)) (h : l ≠ []) :
    joinSep "\n" ((l.map (fun p => entryLines (p.1 + 1) p.2)).flatten)
      = joinSep "\n\n" (l.map (fun p => entryBlock (p.1 + 1) p.2)) ++ "\n" := by
  have hsplit : ∀ x : String, "\n\n" ++ x = "\n" ++ ("\n" ++ x) := by
    intro x
    rw [← String.append_assoc]
    rfl
  induction l with
  | nil => exact absurd rfl h
  | cons p ps ih =>
    cases ps with
    | nil =>
      simp only [List.map_cons, List.map_nil, List.flatten_cons, List.flatten_nil,
        List.append_nil, joinSep_entryLines]
      rfl
    | cons q qs =>
      have hflat : (((q :: qs).map (fun p => entryLines (p.1 + 1) p.2)).flatten) ≠ [] := by
        simp [entryLines]
      rw [List.map_cons, List.flatten_cons,
        joinSep_append "\n" _ _ (by simp [entryLines]) hflat, ih (by simp),
        joinSep_entryLines]
      conv_rhs => rw [List.map_cons, joinSep_cons "\n\n" _ _ (by simp)]
      simp [String.append_assoc, hsplit]

/-- C8: the recall rendering is the literal no-history text exactly when
the sender has no stored entries; otherwise it is the header line, then
the numbered blocks of the stored entries in stored order separated by
blank lines, each block holding the entry sender, subject and body; and
on a storage error the node substitutes the unavailable placeholder. -/
theorem C8_memory_context :
    (∀ (m : MemStore) (sender : String), (loadMemory m sender).isEmpty = true →
      getMemoryContext m sender = "No previous conversation history.") ∧
    (∀ (m : MemStore) (sender : String), (loadMemory m sender).isEmpty = false →
      getMemoryContext m sender =
        "Previous conversation history:" ++ "\n" ++
          joinSep "\n\n" ((loadMemory m sender).enum.map (fun p => entryBlock (p.1 + 1) p.2))
          ++ "\n") ∧
    memoryNode (.error ()) = "No previous conversation history available." := by
  refine ⟨fun m sender h => ?_, fun m sender h => ?_, rfl⟩
  · simp only [getMemoryContext, h, if_true]
  · simp only [getMemoryContext, h, Bool.false_eq_true, if_false]
    obtain ⟨a, t, hat⟩ : ∃ a t, loadMemory m sender = a :: t := by
      cases hl : loadMemory m sender with
      | nil => rw [hl] at h; simp at h
      | cons a t => exact ⟨a, t, rfl⟩
    rw [hat]
    have henum : (a :: t).enum ≠ [] := by simp [List.enum_cons]
    have hflat : (((a :: t).enum.map (fun p => entryLines (p.1 + 1) p.2)).flatten) ≠ [] := by
      rw [List.enum_cons, List.map_cons, List.flatten_cons]
      simp [entryLines]
    rw [joinSep_cons "\n" _ _ hflat, joinSep_flatten_blocks _ henum]
    simp [String.append_assoc]

/-- Witness for C8 on an empty history and on a two-entry history. -/
theorem C8_memory_context_witness :
    ((loadMemory emptyStore "cust@example.com").isEmpty = true ∧
      getMemoryContext emptyStore "cust@example.com" = "No previous conversation history.") ∧
    ((loadMemory c8Store "cust@example.com").isEmpty = false ∧
      getMemoryContext c8Store "cust@example.com" =
        "Previous conversation history:" ++ "\n" ++
          joinSep "\n\n"
            ((loadMemory c8Store "cust@example.com").enum.map
              (fun p => entryBlock (p.1 + 1) p.2)) ++ "\n") :=
  ⟨⟨rfl, C8_memory_context.1 emptyStore "cust@example.com" rfl⟩,
   ⟨rfl, C8_memory_context.2.1 c8Store "cust@example.com" rfl⟩⟩

/-- C9: the key sets written by the five stages are pairwise disjoint,
so no stage overwrites a field written by another stage, and after the
run every written field holds exactly the value its writing stage
produced. -/
theorem C9_disjoint_stage_writes :
    ∀ (intent tone confidence : Json) (ts summary ctx subj : String) (body : Json) (esc : Bool),
      ((pipelineUpdates intent tone confidence ts summary ctx subj body esc).map
          (fun u => u.map Prod.fst)).Pairwise List.Disjoint ∧
      (finalState intent tone confidence ts summary ctx subj body esc "intent" = some intent ∧
        finalState intent tone confidence ts summary ctx subj body esc "tone" = some tone ∧
        finalState intent tone confidence ts summary ctx subj body esc "confidence"
          = some confidence ∧
        finalState intent tone confidence ts summary ctx subj body esc "timestamp"
          = some (.str ts) ∧
        finalState intent tone confidence ts summary ctx subj body esc "summary"
          = some (.str summary) ∧
        finalState intent tone confidence ts summary ctx subj body esc "memory_context"
          = some (.str ctx) ∧
        finalState intent tone confidence ts summary ctx subj body esc "reply_subject"
          = some (.str subj) ∧
        finalState intent tone confidence ts summary ctx subj body esc "reply_body" = some body ∧
        finalState intent tone confidence ts summary ctx subj body esc "escalate"
          = some (.bool esc)) := by
  intro intent tone confidence ts summary ctx subj body esc
  constructor
  · simp [pipelineUpdates, classifyUpdate, summarizeUpdate, memoryUpdate,
      generateReplyUpdate, decisionUpdate, List.pairwise_cons, List.Disjoint]
  · exact ⟨rfl, rfl, rfl, rfl, rfl, rfl, rfl, rfl, rfl⟩

/-- C10: saving an entry for one sender rewrites the whole map but
changes no other sender, whose stored history is left unchanged. -/
theorem C10_save_frame (m : MemStore) (sender : String) (e : Entry) (other : String)
    (h : other ≠ sender) : saveMemory m sender e other = m other := by
  simp [saveMemory, h]

/-- Witness for C10 at distinct concrete senders. -/
theorem C10_save_frame_witness :
    ("other@example.com" : String) ≠ "cust@example.com" ∧
    saveMemory c8Store "cust@example.com" (mkEntry 2) "other@example.com"
      = c8Store "other@example.com" :=
  ⟨by decide, C10_save_frame c8Store "cust@example.com" (mkEntry 2) "other@example.com"
    (by decide)⟩
